import Mathlib

/-!
Shallow embedding of the location-to-service-area resolution core of the
mcp-malaysiatransit repository (src/geocoding.utils.ts, the legacy copy in
src/firebase-analytics.ts, and the detect_location_area tool handler in
src/transit.tools.ts), together with theorems settling the frozen claims
about it.

External HTTP providers are modelled as oracles: functions from the request
string actually sent to the provider outcome for that call.  JavaScript
string operations used by the source (toLowerCase, trim, includes, the
truthiness of numbers and strings, and the or-default idiom) are embedded
as executable character-list functions.
-/

namespace MTransit

/-- Lower-case a single ASCII character, as String.prototype.toLowerCase does
on the ASCII range used by the gazetteer keys and queries. -/
def lowerChar (c : Char) : Char :=
  if 65 ≤ c.toNat && c.toNat ≤ 90 then Char.ofNat (c.toNat + 32) else c

/-- Lower-case a whole string. -/
def lowerStr (s : String) : String :=
  String.mk (s.data.map lowerChar)

def isWsChar (c : Char) : Bool :=
  c == ' ' || c == '\t' || c == '\n' || c == '\r'

/-- Remove leading and trailing whitespace, as String.prototype.trim. -/
def trimChars (l : List Char) : List Char :=
  ((l.dropWhile isWsChar).reverse.dropWhile isWsChar).reverse

/-- The normalisation applied to the query: query.toLowerCase().trim(). -/
def normalizeQuery (q : String) : String :=
  String.mk (trimChars (q.data.map lowerChar))

/-- Does the pattern occur at the head of the character list. -/
def leadsWith : List Char → List Char → Bool
  | [], _ => true
  | _ :: _, [] => false
  | a :: as, b :: bs => a == b && leadsWith as bs

/-- Does the pattern occur anywhere in the character list. -/
def occursIn (pat : List Char) : List Char → Bool
  | [] => pat.isEmpty
  | b :: bs => leadsWith pat (b :: bs) || occursIn pat bs

/-- JavaScript String.prototype.includes: substring containment. -/
def strIncludes (s pat : String) : Bool :=
  occursIn pat.data s.data

/-- JavaScript a or-else b for a string a: b when a is empty, else a. -/
def jsOrStr (a b : String) : String :=
  if a == "" then b else a

/-- JavaScript a or-else b for an optional string a. -/
def jsOrOptStr (a : Option String) (b : String) : String :=
  match a with
  | some s => jsOrStr s b
  | none => b

/-- JavaScript truthiness of an optional number field: present and nonzero. -/
def jsTruthyNum (o : Option Int) : Bool :=
  match o with
  | none => false
  | some n => !(n == 0)

/-- STATE_TO_AREA_MAP of src/geocoding.utils.ts, in insertion order. -/
def STATE_TO_AREA_MAP : List (String × String) :=
  [("kedah", "alor-setar"), ("alor setar", "alor-setar"), ("alor star", "alor-setar"),
   ("perlis", "kangar"), ("kangar", "kangar"),
   ("penang", "penang"), ("pulau pinang", "penang"), ("george town", "penang"),
   ("georgetown", "penang"), ("butterworth", "penang"), ("bayan lepas", "penang"),
   ("perak", "ipoh"), ("ipoh", "ipoh"), ("bercham", "ipoh"),
   ("tanjung rambutan", "ipoh"), ("medan kidd", "ipoh"),
   ("kelantan", "kota-bharu"), ("kota bharu", "kota-bharu"), ("kota bahru", "kota-bharu"),
   ("terengganu", "kuala-terengganu"), ("kuala terengganu", "kuala-terengganu"),
   ("pahang", "kuantan"), ("kuantan", "kuantan"),
   ("negeri sembilan", "seremban"), ("seremban", "seremban"), ("nilai", "seremban"),
   ("port dickson", "seremban"),
   ("selangor", "klang-valley"), ("kuala lumpur", "klang-valley"), ("kl", "klang-valley"),
   ("putrajaya", "klang-valley"), ("petaling jaya", "klang-valley"),
   ("shah alam", "klang-valley"), ("klang", "klang-valley"), ("subang jaya", "klang-valley"),
   ("cyberjaya", "klang-valley"), ("ampang", "klang-valley"), ("cheras", "klang-valley"),
   ("kajang", "klang-valley"), ("bangi", "klang-valley"), ("rawang", "klang-valley"),
   ("gombak", "klang-valley"),
   ("melaka", "melaka"), ("malacca", "melaka"),
   ("johor", "johor"), ("johor bahru", "johor"), ("johor baharu", "johor"),
   ("jb", "johor"), ("iskandar puteri", "johor"),
   ("sarawak", "kuching"), ("kuching", "kuching")]

/-- LOCATION_TO_AREA_MAP of src/geocoding.utils.ts, in insertion order. -/
def LOCATION_TO_AREA_MAP : List (String × String) :=
  [("komtar", "penang"), ("bayan lepas", "penang"), ("butterworth", "penang"),
   ("penang sentral", "penang"), ("gurney", "penang"), ("queensbay", "penang"),
   ("klcc", "klang-valley"), ("klia", "klang-valley"), ("klia2", "klang-valley"),
   ("mid valley", "klang-valley"), ("pavilion", "klang-valley"), ("sunway", "klang-valley"),
   ("1 utama", "klang-valley"), ("kl sentral", "klang-valley"),
   ("bukit bintang", "klang-valley"), ("bangsar", "klang-valley"),
   ("mont kiara", "klang-valley"), ("ioi city", "klang-valley"), ("tbs", "klang-valley"),
   ("terminal bersepadu selatan", "klang-valley"),
   ("medan kidd", "ipoh"), ("terminal amanjaya", "ipoh"), ("ipoh parade", "ipoh"),
   ("terminal one seremban", "seremban"), ("seremban 2", "seremban"),
   ("melaka sentral", "melaka"), ("jonker street", "melaka"), ("a famosa", "melaka"),
   ("jb sentral", "johor"), ("larkin", "johor"), ("legoland", "johor"),
   ("kuching sentral", "kuching")]

/-- The first-match table scan used throughout the source (for example
src/geocoding.utils.ts lines 178-197 and 290-296): the first entry, in
insertion order, whose key is a substring of the given string. -/
def scanTable (table : List (String × String)) (s : String) :
    Option (String × String) :=
  table.find? (fun p => strIncludes s p.1)

/-- Exact-key Record indexing TABLE[key] of the source: the value stored
under the key, if any. -/
def lookupArea (table : List (String × String)) (key : String) : Option String :=
  (table.find? (fun p => p.1 == key)).map (fun p => p.2)

inductive Confidence
  | high
  | medium
  | low
deriving DecidableEq

inductive Source
  | direct_match
  | state_mapping
  | geocoding
deriving DecidableEq

/-- The location part of a GeocodingResult. -/
structure LocationInfo where
  name : String
  state : Option String := none
  country : Option String := none
  lat : Int
  lon : Int
deriving DecidableEq

/-- The GeocodingResult interface of src/geocoding.utils.ts. -/
structure GeocodingResult where
  area : String
  confidence : Confidence
  location : LocationInfo
  source : Source
deriving DecidableEq

/-- The response body of the middleware /api/geocode endpoint: lat, lon and
formattedAddress fields, each possibly absent. -/
structure MWData where
  lat : Option Int := none
  lon : Option Int := none
  formattedAddress : Option String := none
deriving DecidableEq

/-- Outcome of one middleware HTTP call: the axios call throws (network
error or non-2xx status), or it returns a response whose data field may be
absent. -/
inductive MWOutcome
  | err
  | resp (data : Option MWData)
deriving DecidableEq

/-- The address object of a Nominatim search result. -/
structure NomAddress where
  state : Option String := none
  city : Option String := none
  town : Option String := none
  country : Option String := none
deriving DecidableEq

/-- One element of the Nominatim search result array; lat and lon stand for
the numbers obtained by parseFloat on the provider strings. -/
structure NomResult where
  display_name : String
  address : Option NomAddress := none
  lat : Int
  lon : Int
deriving DecidableEq

/-- Outcome of one Nominatim HTTP call. -/
inductive NomOutcome
  | err
  | resp (data : List NomResult)
deriving DecidableEq

/-- The place parameter sent to the middleware geocode endpoint: the original
query, unchanged (src/geocoding.utils.ts lines 273-279). -/
def middlewareRequestPlace (query : String) : String :=
  query

/-- The q parameter sent to the Nominatim search endpoint: the original query
with ", Malaysia" appended when the lower-cased query does not already
contain "malaysia" (src/geocoding.utils.ts lines 340-343). -/
def nominatimSearchQuery (query : String) : String :=
  if strIncludes (lowerStr query) "malaysia" then query else query ++ ", Malaysia"

/-- Modelled from the spec: the spec says every Geocoding Provider call is
made with the original (not lower-cased) query, appending ", Malaysia" if the
string does not already mention the country.  Used only to compare the
request-building of the two providers in the code against this description. -/
def specProviderQuery (query : String) : String :=
  if strIncludes (lowerStr query) "malaysia" then query else query ++ ", Malaysia"

/-- geocodeWithMiddleware of src/geocoding.utils.ts.  The provider oracle maps
the request place string to the call outcome.  An axios throw is re-thrown by
the catch block, hence the Except error; a response without truthy lat and lon
fields yields null. -/
def geocodeWithMiddleware (provider : String → MWOutcome) (query : String) :
    Except Unit (Option GeocodingResult) :=
  match provider (middlewareRequestPlace query) with
  | .err => .error ()
  | .resp data =>
    match data with
    | some d =>
      if jsTruthyNum d.lat && jsTruthyNum d.lon then
        let formattedAddress := lowerStr (jsOrOptStr d.formattedAddress "")
        match scanTable STATE_TO_AREA_MAP formattedAddress with
        | some (key, value) =>
          .ok (some { area := value, confidence := .high,
                      location := { name := jsOrOptStr d.formattedAddress query,
                                    state := some key, country := some "Malaysia",
                                    lat := d.lat.getD 0, lon := d.lon.getD 0 },
                      source := .geocoding })
        | none =>
          .ok (some { area := "unknown", confidence := .low,
                      location := { name := jsOrOptStr d.formattedAddress query,
                                    country := some "Malaysia",
                                    lat := d.lat.getD 0, lon := d.lon.getD 0 },
                      source := .geocoding })
      else .ok none
    | none => .ok none

/-- The area derivation of geocodeWithNominatim (src/geocoding.utils.ts lines
361-373): exact-key lookup of the lower-cased state, then of the lower-cased
city or town when the state lookup found nothing and the city string is
nonempty. -/
def nomDerivedArea (address : NomAddress) : Option String :=
  let state := jsOrOptStr (address.state.map lowerStr) ""
  let city := jsOrOptStr (address.city.map lowerStr) (jsOrOptStr (address.town.map lowerStr) "")
  match lookupArea STATE_TO_AREA_MAP state with
  | some a => some a
  | none =>
    if city == "" then none
    else lookupArea STATE_TO_AREA_MAP city

/-- geocodeWithNominatim of src/geocoding.utils.ts.  The provider oracle maps
the search query actually sent to the call outcome.  Every failure path,
including a thrown axios error, ends in null: the catch block swallows the
error. -/
def geocodeWithNominatim (provider : String → NomOutcome) (query : String) :
    Option GeocodingResult :=
  match provider (nominatimSearchQuery query) with
  | .err => none
  | .resp data =>
    match data with
    | [] => none
    | result :: _ =>
      let address := result.address.getD {}
      match nomDerivedArea address with
      | some a =>
        some { area := a, confidence := .medium,
               location := { name := result.display_name, state := address.state,
                             country := address.country,
                             lat := result.lat, lon := result.lon },
               source := .geocoding }
      | none => none

/-- geocodeLocation of src/geocoding.utils.ts: middleware first; on a thrown
error or a null result, fall back to Nominatim. -/
def geocodeLocation (mw : String → MWOutcome) (nom : String → NomOutcome)
    (query : String) : Option GeocodingResult :=
  match geocodeWithMiddleware mw query with
  | .ok (some result) => some result
  | .ok none => geocodeWithNominatim nom query
  | .error _ => geocodeWithNominatim nom query

/-- detectAreaFromLocation of src/geocoding.utils.ts.  The two table scans are
first-match iterations over the maps in insertion order; geocoding is always
attempted; its thrown errors cannot occur here because geocodeLocation never
throws, matching the dead catch block in the source. -/
def detectAreaFromLocation (mw : String → MWOutcome) (nom : String → NomOutcome)
    (query : String) : Option GeocodingResult :=
  let normalizedQuery := normalizeQuery query
  let direct := scanTable LOCATION_TO_AREA_MAP normalizedQuery
  let stateHit := scanTable STATE_TO_AREA_MAP normalizedQuery
  let detected : Option (String × Option String × Source) :=
    match direct, stateHit with
    | some (_, area), _ => some (area, none, .direct_match)
    | none, some (state, area) => some (area, some state, .state_mapping)
    | none, none => none
  match geocodeLocation mw nom query, detected with
  | some geocodingResult, some (area, _, matchSource) =>
    some { area := area, confidence := .high,
           location := geocodingResult.location, source := matchSource }
  | some geocodingResult, none =>
    if !(geocodingResult.area == "") && !(geocodingResult.area == "unknown") then
      some geocodingResult
    else
      some { area := jsOrStr geocodingResult.area "unknown", confidence := .low,
             location := geocodingResult.location, source := .geocoding }
  | none, some (area, stateOpt, matchSource) =>
    some { area := area, confidence := .medium,
           location := { name := query, state := stateOpt, lat := 0, lon := 0 },
           source := matchSource }
  | none, none => none

/-- getAreaStateMapping of src/geocoding.utils.ts. -/
def getAreaStateMapping : List (String × List String) :=
  [("alor-setar", ["Kedah"]), ("kangar", ["Perlis"]),
   ("penang", ["Penang", "Pulau Pinang"]), ("ipoh", ["Perak"]),
   ("kota-bharu", ["Kelantan"]), ("kuala-terengganu", ["Terengganu"]),
   ("kuantan", ["Pahang"]), ("seremban", ["Negeri Sembilan"]),
   ("klang-valley", ["Selangor", "Kuala Lumpur", "Putrajaya"]),
   ("melaka", ["Melaka", "Malacca"]), ("johor", ["Johor"]),
   ("kuching", ["Sarawak"])]

/-- Structured content of the detect_location_area tool response
(src/transit.tools.ts lines 78-124): on a non-null detection a success record,
otherwise a failure record carrying the fixed area enumeration. -/
inductive ToolOutcome
  | success (r : GeocodingResult)
  | notFound (availableAreas : List (String × List String))
deriving DecidableEq

/-- The detect_location_area handler of src/transit.tools.ts, restricted to
its structured content. -/
def detectLocationAreaTool (mw : String → MWOutcome) (nom : String → NomOutcome)
    (location : String) : ToolOutcome :=
  match detectAreaFromLocation mw nom location with
  | some result => .success result
  | none => .notFound getAreaStateMapping

/-! The legacy copy of the resolver in src/firebase-analytics.ts: the same
gazetteer tables and the same detection control flow, but a Google Maps
primary provider gated on a configured API key, and no unknown-area rewrite
in the success branch. -/

/-- STATE_TO_AREA_MAP of src/firebase-analytics.ts, in insertion order. -/
def FB_STATE_TO_AREA_MAP : List (String × String) :=
  [("kedah", "alor-setar"), ("alor setar", "alor-setar"), ("alor star", "alor-setar"),
   ("perlis", "kangar"), ("kangar", "kangar"),
   ("penang", "penang"), ("pulau pinang", "penang"), ("george town", "penang"),
   ("georgetown", "penang"), ("butterworth", "penang"), ("bayan lepas", "penang"),
   ("perak", "ipoh"), ("ipoh", "ipoh"), ("bercham", "ipoh"),
   ("tanjung rambutan", "ipoh"), ("medan kidd", "ipoh"),
   ("kelantan", "kota-bharu"), ("kota bharu", "kota-bharu"), ("kota bahru", "kota-bharu"),
   ("terengganu", "kuala-terengganu"), ("kuala terengganu", "kuala-terengganu"),
   ("pahang", "kuantan"), ("kuantan", "kuantan"),
   ("negeri sembilan", "seremban"), ("seremban", "seremban"), ("nilai", "seremban"),
   ("port dickson", "seremban"),
   ("selangor", "klang-valley"), ("kuala lumpur", "klang-valley"), ("kl", "klang-valley"),
   ("putrajaya", "klang-valley"), ("petaling jaya", "klang-valley"),
   ("shah alam", "klang-valley"), ("klang", "klang-valley"), ("subang jaya", "klang-valley"),
   ("cyberjaya", "klang-valley"), ("ampang", "klang-valley"), ("cheras", "klang-valley"),
   ("kajang", "klang-valley"), ("bangi", "klang-valley"), ("rawang", "klang-valley"),
   ("gombak", "klang-valley"),
   ("melaka", "melaka"), ("malacca", "melaka"),
   ("johor", "johor"), ("johor bahru", "johor"), ("johor baharu", "johor"),
   ("jb", "johor"), ("iskandar puteri", "johor"),
   ("sarawak", "kuching"), ("kuching", "kuching")]

/-- LOCATION_TO_AREA_MAP of src/firebase-analytics.ts, in insertion order. -/
def FB_LOCATION_TO_AREA_MAP : List (String × String) :=
  [("komtar", "penang"), ("bayan lepas", "penang"), ("butterworth", "penang"),
   ("penang sentral", "penang"), ("gurney", "penang"), ("queensbay", "penang"),
   ("klcc", "klang-valley"), ("klia", "klang-valley"), ("klia2", "klang-valley"),
   ("mid valley", "klang-valley"), ("pavilion", "klang-valley"), ("sunway", "klang-valley"),
   ("1 utama", "klang-valley"), ("kl sentral", "klang-valley"),
   ("bukit bintang", "klang-valley"), ("bangsar", "klang-valley"),
   ("mont kiara", "klang-valley"), ("ioi city", "klang-valley"), ("tbs", "klang-valley"),
   ("terminal bersepadu selatan", "klang-valley"),
   ("medan kidd", "ipoh"), ("terminal amanjaya", "ipoh"), ("ipoh parade", "ipoh"),
   ("terminal one seremban", "seremban"), ("seremban 2", "seremban"),
   ("melaka sentral", "melaka"), ("jonker street", "melaka"), ("a famosa", "melaka"),
   ("jb sentral", "johor"), ("larkin", "johor"), ("legoland", "johor"),
   ("kuching sentral", "kuching")]

/-- One address component of a Google Maps geocode result. -/
structure GoogComponent where
  long_name : String
  types : List String
deriving DecidableEq

/-- One Google Maps geocode result; lat and lon stand for
geometry.location.lat and geometry.location.lng. -/
structure GoogResult where
  formatted_address : String
  address_components : Option (List GoogComponent) := none
  lat : Int
  lon : Int
deriving DecidableEq

/-- Outcome of one Google Maps HTTP call. -/
inductive GoogOutcome
  | err
  | resp (status : String) (results : List GoogResult)
deriving DecidableEq

/-- The search query built by both provider functions in
src/firebase-analytics.ts: append ", Malaysia" unless already mentioned. -/
def fbSearchQuery (query : String) : String :=
  if strIncludes (lowerStr query) "malaysia" then query else query ++ ", Malaysia"

/-- geocodeWithGoogleMaps of src/firebase-analytics.ts. -/
def fbGeocodeWithGoogleMaps (provider : String → GoogOutcome) (query : String) :
    Except Unit (Option GeocodingResult) :=
  match provider (fbSearchQuery query) with
  | .err => .error ()
  | .resp status results =>
    if status == "OK" then
      match results with
      | [] => .ok none
      | result :: _ =>
        let addressComponents := result.address_components.getD []
        let state :=
          match addressComponents.find?
              (fun c => c.types.contains "administrative_area_level_1") with
          | some c => lowerStr c.long_name
          | none => ""
        let area :=
          match lookupArea FB_STATE_TO_AREA_MAP state with
          | some a => some a
          | none =>
            let formattedAddress := lowerStr result.formatted_address
            (scanTable FB_STATE_TO_AREA_MAP formattedAddress).map (fun p => p.2)
        match area with
        | some a =>
          .ok (some { area := a, confidence := .high,
                      location := { name := result.formatted_address,
                                    state := some state, country := some "Malaysia",
                                    lat := result.lat, lon := result.lon },
                      source := .geocoding })
        | none => .ok none
    else .ok none

/-- The Nominatim area derivation of src/firebase-analytics.ts (textually the
same chain as in geocoding.utils, over the legacy state table). -/
def fbNomDerivedArea (address : NomAddress) : Option String :=
  let state := jsOrOptStr (address.state.map lowerStr) ""
  let city := jsOrOptStr (address.city.map lowerStr) (jsOrOptStr (address.town.map lowerStr) "")
  match lookupArea FB_STATE_TO_AREA_MAP state with
  | some a => some a
  | none =>
    if city == "" then none
    else lookupArea FB_STATE_TO_AREA_MAP city

/-- geocodeWithNominatim of src/firebase-analytics.ts. -/
def fbGeocodeWithNominatim (provider : String → NomOutcome) (query : String) :
    Option GeocodingResult :=
  match provider (fbSearchQuery query) with
  | .err => none
  | .resp data =>
    match data with
    | [] => none
    | result :: _ =>
      let address := result.address.getD {}
      match fbNomDerivedArea address with
      | some a =>
        some { area := a, confidence := .medium,
               location := { name := result.display_name, state := address.state,
                             country := address.country,
                             lat := result.lat, lon := result.lon },
               source := .geocoding }
      | none => none

/-- geocodeLocation of src/firebase-analytics.ts: Google Maps first when an
API key is configured, otherwise straight to Nominatim. -/
def fbGeocodeLocation (apiKey : Option String) (goog : String → GoogOutcome)
    (nom : String → NomOutcome) (query : String) : Option GeocodingResult :=
  match apiKey with
  | some _ =>
    match fbGeocodeWithGoogleMaps goog query with
    | .ok (some result) => some result
    | .ok none => fbGeocodeWithNominatim nom query
    | .error _ => fbGeocodeWithNominatim nom query
  | none => fbGeocodeWithNominatim nom query

/-- detectAreaFromLocation of src/firebase-analytics.ts.  Identical control
flow to the geocoding.utils version except that a successful geocode with no
table match is returned as-is, with no unknown-area rewrite branch. -/
def fbDetectAreaFromLocation (apiKey : Option String) (goog : String → GoogOutcome)
    (nom : String → NomOutcome) (query : String) : Option GeocodingResult :=
  let normalizedQuery := normalizeQuery query
  let direct := scanTable FB_LOCATION_TO_AREA_MAP normalizedQuery
  let stateHit := scanTable FB_STATE_TO_AREA_MAP normalizedQuery
  let detected : Option (String × Option String × Source) :=
    match direct, stateHit with
    | some (_, area), _ => some (area, none, .direct_match)
    | none, some (state, area) => some (area, some state, .state_mapping)
    | none, none => none
  match fbGeocodeLocation apiKey goog nom query, detected with
  | some geocodingResult, some (area, _, matchSource) =>
    some { area := area, confidence := .high,
           location := geocodingResult.location, source := matchSource }
  | some geocodingResult, none => some geocodingResult
  | none, some (area, stateOpt, matchSource) =>
    some { area := area, confidence := .medium,
           location := { name := query, state := stateOpt, lat := 0, lon := 0 },
           source := matchSource }
  | none, none => none

/-! Branch lemmas characterising detectAreaFromLocation, one per control-flow
path of the source function. -/

theorem detect_direct_geocode_ok (mw : String → MWOutcome) (nom : String → NomOutcome)
    (q k a : String) (g : GeocodingResult)
    (hd : scanTable LOCATION_TO_AREA_MAP (normalizeQuery q) = some (k, a))
    (hg : geocodeLocation mw nom q = some g) :
    detectAreaFromLocation mw nom q =
      some { area := a, confidence := .high, location := g.location,
             source := .direct_match } := by
  simp only [detectAreaFromLocation, hd, hg]

theorem detect_direct_geocode_fail (mw : String → MWOutcome) (nom : String → NomOutcome)
    (q k a : String)
    (hd : scanTable LOCATION_TO_AREA_MAP (normalizeQuery q) = some (k, a))
    (hg : geocodeLocation mw nom q = none) :
    detectAreaFromLocation mw nom q =
      some { area := a, confidence := .medium,
             location := { name := q, state := none, lat := 0, lon := 0 },
             source := .direct_match } := by
  simp only [detectAreaFromLocation, hd, hg]

theorem detect_state_geocode_ok (mw : String → MWOutcome) (nom : String → NomOutcome)
    (q k a : String) (g : GeocodingResult)
    (hd : scanTable LOCATION_TO_AREA_MAP (normalizeQuery q) = none)
    (hs : scanTable STATE_TO_AREA_MAP (normalizeQuery q) = some (k, a))
    (hg : geocodeLocation mw nom q = some g) :
    detectAreaFromLocation mw nom q =
      some { area := a, confidence := .high, location := g.location,
             source := .state_mapping } := by
  simp only [detectAreaFromLocation, hd, hs, hg]

theorem detect_state_geocode_fail (mw : String → MWOutcome) (nom : String → NomOutcome)
    (q k a : String)
    (hd : scanTable LOCATION_TO_AREA_MAP (normalizeQuery q) = none)
    (hs : scanTable STATE_TO_AREA_MAP (normalizeQuery q) = some (k, a))
    (hg : geocodeLocation mw nom q = none) :
    detectAreaFromLocation mw nom q =
      some { area := a, confidence := .medium,
             location := { name := q, state := some k, lat := 0, lon := 0 },
             source := .state_mapping } := by
  simp only [detectAreaFromLocation, hd, hs, hg]

theorem detect_nomatch_geocode_ok (mw : String → MWOutcome) (nom : String → NomOutcome)
    (q : String) (g : GeocodingResult)
    (hd : scanTable LOCATION_TO_AREA_MAP (normalizeQuery q) = none)
    (hs : scanTable STATE_TO_AREA_MAP (normalizeQuery q) = none)
    (hg : geocodeLocation mw nom q = some g) :
    detectAreaFromLocation mw nom q =
      (if !(g.area == "") && !(g.area == "unknown") then some g
       else some { area := jsOrStr g.area "unknown", confidence := .low,
                   location := g.location, source := .geocoding }) := by
  simp only [detectAreaFromLocation, hd, hs, hg]

theorem detect_nomatch_geocode_fail (mw : String → MWOutcome) (nom : String → NomOutcome)
    (q : String)
    (hd : scanTable LOCATION_TO_AREA_MAP (normalizeQuery q) = none)
    (hs : scanTable STATE_TO_AREA_MAP (normalizeQuery q) = none)
    (hg : geocodeLocation mw nom q = none) :
    detectAreaFromLocation mw nom q = none := by
  simp only [detectAreaFromLocation, hd, hs, hg]

theorem scanTable_isSome_of_mem {table : List (String × String)} {s : String}
    (e : String × String) (hmem : e ∈ table) (hinc : strIncludes s e.1 = true) :
    (scanTable table s).isSome := by
  rw [scanTable, List.find?_isSome]
  exact ⟨e, hmem, hinc⟩

theorem scanTable_eq_none {table : List (String × String)} {s : String}
    (h : ∀ e ∈ table, strIncludes s e.1 = false) :
    scanTable table s = none := by
  rw [scanTable, List.find?_eq_none]
  intro e he
  simp [h e he]

/-- Claim C1: for every query whose normalised (lower-cased, trimmed) form
contains some key of the direct-location gazetteer as a substring,
detectAreaFromLocation returns a result whose area is the mapped area of a
contained key and whose source is direct_match; and whenever the geocoding
call succeeds, the returned confidence is high and the returned location is
the geocoded one. -/
theorem C1_direct_match (mw : String → MWOutcome) (nom : String → NomOutcome) (q : String)
    (h : ∃ e ∈ LOCATION_TO_AREA_MAP, strIncludes (normalizeQuery q) e.1 = true) :
    ∃ e ∈ LOCATION_TO_AREA_MAP, strIncludes (normalizeQuery q) e.1 = true ∧
      ∃ r, detectAreaFromLocation mw nom q = some r ∧
        r.area = e.2 ∧ r.source = .direct_match ∧
        ∀ g, geocodeLocation mw nom q = some g →
          r.confidence = .high ∧ r.location = g.location := by
  obtain ⟨e0, hmem0, hinc0⟩ := h
  obtain ⟨e, he⟩ := Option.isSome_iff_exists.mp (scanTable_isSome_of_mem e0 hmem0 hinc0)
  obtain ⟨k, a⟩ := e
  have he' : LOCATION_TO_AREA_MAP.find?
      (fun p => strIncludes (normalizeQuery q) p.1) = some (k, a) := he
  have hmem : (k, a) ∈ LOCATION_TO_AREA_MAP := List.mem_of_find?_eq_some he'
  have hp : strIncludes (normalizeQuery q) k = true := by
    have h2 := (List.find?_eq_some.mp he').1
    simpa using h2
  refine ⟨(k, a), hmem, hp, ?_⟩
  cases hg : geocodeLocation mw nom q with
  | some g =>
    exact ⟨_, detect_direct_geocode_ok mw nom q k a g he hg, rfl, rfl,
      fun g' hg' => by cases hg'; exact ⟨rfl, rfl⟩⟩
  | none =>
    exact ⟨_, detect_direct_geocode_fail mw nom q k a he hg, rfl, rfl,
      fun g' hg' => by cases hg'⟩

/-- Claim C1 witness: instantiated at the query "Komtar, please" with both
providers failing. -/
theorem C1_direct_match_witness :
    (∃ e ∈ LOCATION_TO_AREA_MAP,
        strIncludes (normalizeQuery "Komtar, please") e.1 = true) ∧
      ∃ e ∈ LOCATION_TO_AREA_MAP,
        strIncludes (normalizeQuery "Komtar, please") e.1 = true ∧
        ∃ r, detectAreaFromLocation (fun _ => .err) (fun _ => .err) "Komtar, please" = some r ∧
          r.area = e.2 ∧ r.source = .direct_match ∧
          ∀ g, geocodeLocation (fun _ => .err) (fun _ => .err) "Komtar, please" = some g →
            r.confidence = .high ∧ r.location = g.location :=
  ⟨by decide, C1_direct_match (fun _ => .err) (fun _ => .err) "Komtar, please" (by decide)⟩

/-- Claim C2: whenever a gazetteer match exists in either tier and the
geocoding call yields no result, detectAreaFromLocation returns the area and
source of the table match with confidence exactly medium and the sentinel
coordinates lat = 0 and lon = 0. -/
theorem C2_medium_sentinel (mw : String → MWOutcome) (nom : String → NomOutcome)
    (q : String) (hg : geocodeLocation mw nom q = none)
    (h : (scanTable LOCATION_TO_AREA_MAP (normalizeQuery q)).isSome ∨
         (scanTable STATE_TO_AREA_MAP (normalizeQuery q)).isSome) :
    ∃ r, detectAreaFromLocation mw nom q = some r ∧
      r.confidence = .medium ∧ r.location.lat = 0 ∧ r.location.lon = 0 ∧
      ((∃ e, scanTable LOCATION_TO_AREA_MAP (normalizeQuery q) = some e ∧
          r.area = e.2 ∧ r.source = .direct_match) ∨
       (scanTable LOCATION_TO_AREA_MAP (normalizeQuery q) = none ∧
        ∃ e, scanTable STATE_TO_AREA_MAP (normalizeQuery q) = some e ∧
          r.area = e.2 ∧ r.source = .state_mapping)) := by
  cases hd : scanTable LOCATION_TO_AREA_MAP (normalizeQuery q) with
  | some e =>
    obtain ⟨k, a⟩ := e
    exact ⟨_, detect_direct_geocode_fail mw nom q k a hd hg, rfl, rfl, rfl,
      Or.inl ⟨(k, a), rfl, rfl, rfl⟩⟩
  | none =>
    have hs : (scanTable STATE_TO_AREA_MAP (normalizeQuery q)).isSome := by
      rcases h with h | h
      · rw [hd] at h
        simp at h
      · exact h
    obtain ⟨e, hse⟩ := Option.isSome_iff_exists.mp hs
    obtain ⟨k, a⟩ := e
    exact ⟨_, detect_state_geocode_fail mw nom q k a hd hse hg, rfl, rfl, rfl,
      Or.inr ⟨rfl, (k, a), hse, rfl, rfl⟩⟩

/-- Claim C2 witness: instantiated at the query "Kedah trip" with both
providers erroring. -/
theorem C2_medium_sentinel_witness :
    ∃ r, detectAreaFromLocation (fun _ => .err) (fun _ => .err) "Kedah trip" = some r ∧
      r.confidence = .medium ∧ r.location.lat = 0 ∧ r.location.lon = 0 ∧
      ((∃ e, scanTable LOCATION_TO_AREA_MAP (normalizeQuery "Kedah trip") = some e ∧
          r.area = e.2 ∧ r.source = .direct_match) ∨
       (scanTable LOCATION_TO_AREA_MAP (normalizeQuery "Kedah trip") = none ∧
        ∃ e, scanTable STATE_TO_AREA_MAP (normalizeQuery "Kedah trip") = some e ∧
          r.area = e.2 ∧ r.source = .state_mapping)) :=
  C2_medium_sentinel (fun _ => .err) (fun _ => .err) "Kedah trip" (by decide)
    (Or.inr (by decide))

/-- Claim C3: when no gazetteer key of either tier is a substring of the
normalised query and the geocoding call yields no result,
detectAreaFromLocation returns none rather than throwing, and the
detect_location_area handler then presents the fixed enumeration of valid
service areas. -/
theorem C3_notfound (mw : String → MWOutcome) (nom : String → NomOutcome) (q : String)
    (hd : ∀ e ∈ LOCATION_TO_AREA_MAP, strIncludes (normalizeQuery q) e.1 = false)
    (hs : ∀ e ∈ STATE_TO_AREA_MAP, strIncludes (normalizeQuery q) e.1 = false)
    (hg : geocodeLocation mw nom q = none) :
    detectAreaFromLocation mw nom q = none ∧
      detectLocationAreaTool mw nom q = .notFound getAreaStateMapping := by
  have hd' := scanTable_eq_none hd
  have hs' := scanTable_eq_none hs
  have h := detect_nomatch_geocode_fail mw nom q hd' hs' hg
  exact ⟨h, by simp only [detectLocationAreaTool, h]⟩

/-- Claim C3 witness: instantiated at the nonsense query of the spec with
both providers erroring. -/
theorem C3_notfound_witness :
    detectAreaFromLocation (fun _ => .err) (fun _ => .err) "asdkfjasldkfj_not_a_place" = none ∧
      detectLocationAreaTool (fun _ => .err) (fun _ => .err) "asdkfjasldkfj_not_a_place" =
        .notFound getAreaStateMapping :=
  C3_notfound (fun _ => .err) (fun _ => .err) "asdkfjasldkfj_not_a_place"
    (by decide) (by decide) (by decide)

/-- Claim C6: for every query whose normalised form contains a state-mapping
key but no direct-location key, detectAreaFromLocation returns source
state_mapping with the mapped area, and the entry used is the first matching
one in the insertion order of the state table (first-match-wins), which is
what the scan, List.find? over the table in insertion order, returns. -/
theorem C6_state_mapping_first_match (mw : String → MWOutcome) (nom : String → NomOutcome)
    (q : String)
    (hd : ∀ e ∈ LOCATION_TO_AREA_MAP, strIncludes (normalizeQuery q) e.1 = false)
    (hs : ∃ e ∈ STATE_TO_AREA_MAP, strIncludes (normalizeQuery q) e.1 = true) :
    ∃ e, scanTable STATE_TO_AREA_MAP (normalizeQuery q) = some e ∧
      e ∈ STATE_TO_AREA_MAP ∧ strIncludes (normalizeQuery q) e.1 = true ∧
      ∃ r, detectAreaFromLocation mw nom q = some r ∧
        r.source = .state_mapping ∧ r.area = e.2 := by
  obtain ⟨e0, hmem0, hinc0⟩ := hs
  have hd' := scanTable_eq_none hd
  obtain ⟨e, hse⟩ := Option.isSome_iff_exists.mp (scanTable_isSome_of_mem e0 hmem0 hinc0)
  obtain ⟨k, a⟩ := e
  have hse' : STATE_TO_AREA_MAP.find?
      (fun p => strIncludes (normalizeQuery q) p.1) = some (k, a) := hse
  have hmem : (k, a) ∈ STATE_TO_AREA_MAP := List.mem_of_find?_eq_some hse'
  have hp : strIncludes (normalizeQuery q) k = true := by
    have h2 := (List.find?_eq_some.mp hse').1
    simpa using h2
  refine ⟨(k, a), hse, hmem, hp, ?_⟩
  cases hg : geocodeLocation mw nom q with
  | some g => exact ⟨_, detect_state_geocode_ok mw nom q k a g hd' hse hg, rfl, rfl⟩
  | none => exact ⟨_, detect_state_geocode_fail mw nom q k a hd' hse hg, rfl, rfl⟩

/-- Claim C6 witness: the query "klang port dickson" contains both the key
"klang" (mapped to klang-valley) and the key "port dickson" (mapped to
seremban); "port dickson" comes first in insertion order, so the scan picks
seremban even though "klang" is also a substring. -/
theorem C6_state_mapping_first_match_witness :
    (∃ e, scanTable STATE_TO_AREA_MAP (normalizeQuery "klang port dickson") = some e ∧
      e ∈ STATE_TO_AREA_MAP ∧
      strIncludes (normalizeQuery "klang port dickson") e.1 = true ∧
      ∃ r, detectAreaFromLocation (fun _ => .err) (fun _ => .err) "klang port dickson" = some r ∧
        r.source = .state_mapping ∧ r.area = e.2) ∧
    scanTable STATE_TO_AREA_MAP (normalizeQuery "klang port dickson") =
      some ("port dickson", "seremban") ∧
    strIncludes (normalizeQuery "klang port dickson") "klang" = true :=
  ⟨C6_state_mapping_first_match (fun _ => .err) (fun _ => .err) "klang port dickson"
      (by decide) (by decide),
   by decide, by decide⟩

/-- The failure modes of one primary-provider call, as the source treats
them: a thrown axios error (network failure or non-2xx status), an absent
response body, or a body without truthy lat and lon fields (malformed). -/
def mwFails (mw : String → MWOutcome) (q : String) : Prop :=
  mw (middlewareRequestPlace q) = .err ∨
  mw (middlewareRequestPlace q) = .resp none ∨
  ∃ d, mw (middlewareRequestPlace q) = .resp (some d) ∧
    (jsTruthyNum d.lat = false ∨ jsTruthyNum d.lon = false)

theorem geocodeWithMiddleware_of_fails {mw : String → MWOutcome} {q : String}
    (hf : mwFails mw q) :
    geocodeWithMiddleware mw q = .error () ∨ geocodeWithMiddleware mw q = .ok none := by
  rcases hf with h | h | ⟨d, h, hd⟩
  · left
    simp only [geocodeWithMiddleware, h]
  · right
    simp only [geocodeWithMiddleware, h]
  · right
    simp only [geocodeWithMiddleware, h]
    rcases hd with hd | hd <;> simp [hd]

theorem geocodeLocation_of_mwFails {mw : String → MWOutcome} {nom : String → NomOutcome}
    {q : String} (hf : mwFails mw q) :
    geocodeLocation mw nom q = geocodeWithNominatim nom q := by
  rcases geocodeWithMiddleware_of_fails hf with h | h <;>
    simp only [geocodeLocation, h]

/-- Claim C7: a primary-provider failure of any kind (thrown error, missing
body, malformed body without lat and lon) never propagates: the geocode chain
silently advances to the fallback, all primary failure modes are
indistinguishable in the final result, and detectAreaFromLocation only ever
yields a GeocodingResult or none. -/
theorem C7_silent_fallback (mw : String → MWOutcome) (nom : String → NomOutcome)
    (q : String) (hf : mwFails mw q) :
    geocodeLocation mw nom q = geocodeWithNominatim nom q ∧
    (∀ mw2, mwFails mw2 q →
      detectAreaFromLocation mw nom q = detectAreaFromLocation mw2 nom q) ∧
    (detectAreaFromLocation mw nom q = none ∨
      ∃ r, detectAreaFromLocation mw nom q = some r) := by
  have h1 : geocodeLocation mw nom q = geocodeWithNominatim nom q :=
    geocodeLocation_of_mwFails hf
  refine ⟨h1, ?_, ?_⟩
  · intro mw2 hf2
    have h2 : geocodeLocation mw2 nom q = geocodeWithNominatim nom q :=
      geocodeLocation_of_mwFails hf2
    simp only [detectAreaFromLocation, h1, h2]
  · cases h : detectAreaFromLocation mw nom q with
    | none => exact Or.inl rfl
    | some r => exact Or.inr ⟨r, rfl⟩

/-- Claim C7 witness: instantiated at the query "Penang" with a throwing
primary provider and an erroring fallback. -/
theorem C7_silent_fallback_witness :
    geocodeLocation (fun _ => .err) (fun _ => .err) "Penang" =
        geocodeWithNominatim (fun _ => .err) "Penang" ∧
      (∀ mw2, mwFails mw2 "Penang" →
        detectAreaFromLocation (fun _ => .err) (fun _ => .err) "Penang" =
          detectAreaFromLocation mw2 (fun _ => .err) "Penang") ∧
      (detectAreaFromLocation (fun _ => .err) (fun _ => .err) "Penang" = none ∨
        ∃ r, detectAreaFromLocation (fun _ => .err) (fun _ => .err) "Penang" = some r) :=
  C7_silent_fallback (fun _ => .err) (fun _ => .err) "Penang" (Or.inl rfl)

theorem lookupArea_mem {table : List (String × String)} {key a : String}
    (h : lookupArea table key = some a) : ∃ e ∈ table, e.2 = a := by
  rw [lookupArea] at h
  cases hf : table.find? (fun p => p.1 == key) with
  | none => rw [hf] at h; cases h
  | some e =>
    rw [hf] at h
    cases h
    exact ⟨e, List.mem_of_find?_eq_some hf, rfl⟩

theorem scanTable_mem {table : List (String × String)} {s : String}
    {e : String × String} (h : scanTable table s = some e) : e ∈ table := by
  rw [scanTable] at h
  exact List.mem_of_find?_eq_some h

theorem nomDerivedArea_mem {address : NomAddress} {a : String}
    (h : nomDerivedArea address = some a) : ∃ e ∈ STATE_TO_AREA_MAP, e.2 = a := by
  simp only [nomDerivedArea] at h
  cases h1 : lookupArea STATE_TO_AREA_MAP (jsOrOptStr (address.state.map lowerStr) "") with
  | some b =>
    simp only [h1] at h
    cases h
    exact lookupArea_mem h1
  | none =>
    simp only [h1] at h
    split at h
    · cases h
    · exact lookupArea_mem h

/-- Every value stored in either gazetteer table is a nonempty area name,
never the string "unknown". -/
theorem table_values_ok :
    ∀ e ∈ LOCATION_TO_AREA_MAP ++ STATE_TO_AREA_MAP, e.2 ≠ "unknown" ∧ e.2 ≠ "" := by
  decide

theorem state_values_ok :
    ∀ e ∈ STATE_TO_AREA_MAP, e.2 ≠ "unknown" ∧ e.2 ≠ "" := by
  decide

/-- Shape of a successful middleware geocode whose formatted address matches
a state key. -/
theorem geocodeWithMiddleware_scan_some {mw : String → MWOutcome} {q : String}
    {d : MWData} {k v : String}
    (hresp : mw (middlewareRequestPlace q) = .resp (some d))
    (hlat : jsTruthyNum d.lat = true) (hlon : jsTruthyNum d.lon = true)
    (hscan : scanTable STATE_TO_AREA_MAP (lowerStr (jsOrOptStr d.formattedAddress "")) =
      some (k, v)) :
    geocodeWithMiddleware mw q =
      .ok (some { area := v, confidence := .high,
                  location := { name := jsOrOptStr d.formattedAddress q,
                                state := some k, country := some "Malaysia",
                                lat := d.lat.getD 0, lon := d.lon.getD 0 },
                  source := .geocoding }) := by
  have hc : (jsTruthyNum d.lat && jsTruthyNum d.lon) = true := by rw [hlat, hlon]; rfl
  simp [geocodeWithMiddleware, hresp, hc, hscan]

/-- Shape of a successful middleware geocode whose formatted address matches
no state key. -/
theorem geocodeWithMiddleware_scan_none {mw : String → MWOutcome} {q : String}
    {d : MWData}
    (hresp : mw (middlewareRequestPlace q) = .resp (some d))
    (hlat : jsTruthyNum d.lat = true) (hlon : jsTruthyNum d.lon = true)
    (hscan : scanTable STATE_TO_AREA_MAP (lowerStr (jsOrOptStr d.formattedAddress "")) =
      none) :
    geocodeWithMiddleware mw q =
      .ok (some { area := "unknown", confidence := .low,
                  location := { name := jsOrOptStr d.formattedAddress q,
                                state := none, country := some "Malaysia",
                                lat := d.lat.getD 0, lon := d.lon.getD 0 },
                  source := .geocoding }) := by
  have hc : (jsTruthyNum d.lat && jsTruthyNum d.lon) = true := by rw [hlat, hlon]; rfl
  simp [geocodeWithMiddleware, hresp, hc, hscan]

/-- Shape of a successful Nominatim geocode. -/
theorem geocodeWithNominatim_shape {nom : String → NomOutcome} {q : String}
    {res : NomResult} {rest : List NomResult} {a : String}
    (hresp : nom (nominatimSearchQuery q) = .resp (res :: rest))
    (harea : nomDerivedArea (res.address.getD {}) = some a) :
    geocodeWithNominatim nom q =
      some { area := a, confidence := .medium,
             location := { name := res.display_name,
                           state := (res.address.getD {}).state,
                           country := (res.address.getD {}).country,
                           lat := res.lat, lon := res.lon },
             source := .geocoding } := by
  simp [geocodeWithNominatim, hresp, harea]

/-- Claim C8: when the input matches no gazetteer key but geocoding succeeds
and an area is derived from the provider address text, the result has source
geocoding and never state_mapping, with confidence high when the primary
middleware provider answered and medium when the Nominatim fallback
answered. -/
theorem C8_geocoding_confidence (mw : String → MWOutcome) (nom : String → NomOutcome)
    (q : String)
    (hd : ∀ e ∈ LOCATION_TO_AREA_MAP, strIncludes (normalizeQuery q) e.1 = false)
    (hs : ∀ e ∈ STATE_TO_AREA_MAP, strIncludes (normalizeQuery q) e.1 = false) :
    (∀ d k v, mw (middlewareRequestPlace q) = .resp (some d) →
      jsTruthyNum d.lat = true → jsTruthyNum d.lon = true →
      scanTable STATE_TO_AREA_MAP (lowerStr (jsOrOptStr d.formattedAddress "")) =
        some (k, v) →
      ∃ r, detectAreaFromLocation mw nom q = some r ∧
        r.source = .geocoding ∧ r.confidence = .high ∧ r.area = v) ∧
    (∀ res rest a, mwFails mw q →
      nom (nominatimSearchQuery q) = .resp (res :: rest) →
      nomDerivedArea (res.address.getD {}) = some a →
      ∃ r, detectAreaFromLocation mw nom q = some r ∧
        r.source = .geocoding ∧ r.confidence = .medium ∧ r.area = a) := by
  have hd' := scanTable_eq_none hd
  have hs' := scanTable_eq_none hs
  constructor
  · intro d k v hresp hlat hlon hscan
    have hmw := geocodeWithMiddleware_scan_some hresp hlat hlon hscan
    have hg : geocodeLocation mw nom q =
        some { area := v, confidence := .high,
               location := { name := jsOrOptStr d.formattedAddress q,
                             state := some k, country := some "Malaysia",
                             lat := d.lat.getD 0, lon := d.lon.getD 0 },
               source := .geocoding } := by
      simp only [geocodeLocation, hmw]
    have hdet := detect_nomatch_geocode_ok mw nom q _ hd' hs' hg
    have hv := state_values_ok (k, v) (scanTable_mem hscan)
    have hb1 : (v == "") = false := beq_eq_false_iff_ne.mpr hv.2
    have hb2 : (v == "unknown") = false := beq_eq_false_iff_ne.mpr hv.1
    rw [hdet]
    simp only [hb1, hb2, Bool.not_false, Bool.and_self, if_true]
    exact ⟨_, rfl, rfl, rfl, rfl⟩
  · intro res rest a hfail hresp harea
    have hnom := geocodeWithNominatim_shape hresp harea
    have hg : geocodeLocation mw nom q =
        some { area := a, confidence := .medium,
               location := { name := res.display_name,
                             state := (res.address.getD {}).state,
                             country := (res.address.getD {}).country,
                             lat := res.lat, lon := res.lon },
               source := .geocoding } := by
      rw [geocodeLocation_of_mwFails hfail, hnom]
    have hdet := detect_nomatch_geocode_ok mw nom q _ hd' hs' hg
    obtain ⟨e, hmem, heq⟩ := nomDerivedArea_mem harea
    have hv := state_values_ok e hmem
    rw [heq] at hv
    have hb1 : (a == "") = false := beq_eq_false_iff_ne.mpr hv.2
    have hb2 : (a == "unknown") = false := beq_eq_false_iff_ne.mpr hv.1
    rw [hdet]
    simp only [hb1, hb2, Bool.not_false, Bool.and_self, if_true]
    exact ⟨_, rfl, rfl, rfl, rfl⟩

/-- Claim C8 witness: instantiated twice at the query "zzz": once with a
succeeding middleware whose formatted address mentions Penang, once with a
throwing middleware and a Nominatim result whose address state is Penang. -/
theorem C8_geocoding_confidence_witness :
    (∃ r, detectAreaFromLocation
        (fun _ => .resp (some ⟨some 5, some 101, some "George Town, Penang, Malaysia"⟩))
        (fun _ => .err) "zzz" = some r ∧
      r.source = .geocoding ∧ r.confidence = .high ∧ r.area = "penang") ∧
    (∃ r, detectAreaFromLocation (fun _ => .err)
        (fun _ => .resp [⟨"George Town, Penang", some ⟨some "Penang", none, none, none⟩, 5, 100⟩])
        "zzz" = some r ∧
      r.source = .geocoding ∧ r.confidence = .medium ∧ r.area = "penang") :=
  ⟨(C8_geocoding_confidence
      (fun _ => .resp (some ⟨some 5, some 101, some "George Town, Penang, Malaysia"⟩))
      (fun _ => .err) "zzz" (by decide) (by decide)).1
      ⟨some 5, some 101, some "George Town, Penang, Malaysia"⟩ "penang" "penang"
      rfl (by decide) (by decide) (by decide),
   (C8_geocoding_confidence (fun _ => .err)
      (fun _ => .resp [⟨"George Town, Penang", some ⟨some "Penang", none, none, none⟩, 5, 100⟩])
      "zzz" (by decide) (by decide)).2
      ⟨"George Town, Penang", some ⟨some "Penang", none, none, none⟩, 5, 100⟩ [] "penang"
      (Or.inl rfl) rfl (by decide)⟩

theorem geocodeWithMiddleware_invariant {mw : String → MWOutcome} {q : String}
    {r : GeocodingResult} (h : geocodeWithMiddleware mw q = .ok (some r)) :
    r.source = .geocoding ∧
    ((r.area = "unknown" ∧ r.confidence = .low) ∨
     ((∃ e ∈ STATE_TO_AREA_MAP, e.2 = r.area) ∧ r.confidence = .high)) := by
  cases hmw : mw (middlewareRequestPlace q) with
  | err => simp [geocodeWithMiddleware, hmw] at h
  | resp data =>
    cases data with
    | none => simp [geocodeWithMiddleware, hmw] at h
    | some d =>
      by_cases hc : (jsTruthyNum d.lat && jsTruthyNum d.lon) = true
      · rw [Bool.and_eq_true] at hc
        obtain ⟨hlat, hlon⟩ := hc
        cases hscan : scanTable STATE_TO_AREA_MAP
            (lowerStr (jsOrOptStr d.formattedAddress "")) with
        | some e =>
          obtain ⟨k, v⟩ := e
          rw [geocodeWithMiddleware_scan_some hmw hlat hlon hscan] at h
          simp only [Except.ok.injEq, Option.some.injEq] at h
          subst h
          exact ⟨rfl, Or.inr ⟨⟨(k, v), scanTable_mem hscan, rfl⟩, rfl⟩⟩
        | none =>
          rw [geocodeWithMiddleware_scan_none hmw hlat hlon hscan] at h
          simp only [Except.ok.injEq, Option.some.injEq] at h
          subst h
          exact ⟨rfl, Or.inl ⟨rfl, rfl⟩⟩
      · have hnone : geocodeWithMiddleware mw q = .ok none := by
          simp only [geocodeWithMiddleware, hmw]
          rw [if_neg hc]
        rw [hnone] at h
        simp at h

theorem geocodeWithNominatim_invariant {nom : String → NomOutcome} {q : String}
    {r : GeocodingResult} (h : geocodeWithNominatim nom q = some r) :
    r.source = .geocoding ∧
    ((r.area = "unknown" ∧ r.confidence = .low) ∨
     ((∃ e ∈ STATE_TO_AREA_MAP, e.2 = r.area) ∧
      (r.confidence = .high ∨ r.confidence = .medium))) := by
  cases hn : nom (nominatimSearchQuery q) with
  | err => simp [geocodeWithNominatim, hn] at h
  | resp data =>
    cases data with
    | nil => simp [geocodeWithNominatim, hn] at h
    | cons res rest =>
      cases ha : nomDerivedArea (res.address.getD {}) with
      | none => simp [geocodeWithNominatim, hn, ha] at h
      | some a =>
        rw [geocodeWithNominatim_shape hn ha] at h
        simp only [Option.some.injEq] at h
        subst h
        exact ⟨rfl, Or.inr ⟨nomDerivedArea_mem ha, Or.inr rfl⟩⟩

theorem geocodeLocation_invariant {mw : String → MWOutcome} {nom : String → NomOutcome}
    {q : String} {g : GeocodingResult} (h : geocodeLocation mw nom q = some g) :
    g.source = .geocoding ∧
    ((g.area = "unknown" ∧ g.confidence = .low) ∨
     ((∃ e ∈ STATE_TO_AREA_MAP, e.2 = g.area) ∧
      (g.confidence = .high ∨ g.confidence = .medium))) := by
  cases hm : geocodeWithMiddleware mw q with
  | error e =>
    simp only [geocodeLocation, hm] at h
    exact geocodeWithNominatim_invariant h
  | ok o =>
    cases o with
    | none =>
      simp only [geocodeLocation, hm] at h
      exact geocodeWithNominatim_invariant h
    | some r0 =>
      simp only [geocodeLocation, hm, Option.some.injEq] at h
      subst h
      obtain ⟨h1, h2⟩ := geocodeWithMiddleware_invariant hm
      exact ⟨h1, h2.imp id (fun x => ⟨x.1, Or.inl x.2⟩)⟩

theorem area_invariant_of_table {r : GeocodingResult} {a : String}
    (hr : r.area = a) (hne : a ≠ "unknown")
    (hmem : ∃ e ∈ LOCATION_TO_AREA_MAP ++ STATE_TO_AREA_MAP, e.2 = a)
    (hconf : r.confidence ≠ .low) :
    (r.area = "unknown" ∨ ∃ e ∈ LOCATION_TO_AREA_MAP ++ STATE_TO_AREA_MAP, e.2 = r.area) ∧
    (r.area = "unknown" ↔ r.confidence = .low) ∧
    (r.area = "unknown" → r.source = .geocoding) := by
  refine ⟨Or.inr (by rw [hr]; exact hmem), ?_, ?_⟩
  · constructor
    · intro hx
      rw [hr] at hx
      exact absurd hx hne
    · intro hx
      exact absurd hx hconf
  · intro hx
    rw [hr] at hx
    exact absurd hx hne

/-- Claim C9: every non-null result of detectAreaFromLocation has an area
that is a value of one of the two gazetteer tables or the string "unknown";
the area is "unknown" exactly when the confidence is low, and in that case
the source is geocoding. -/
theorem C9_area_invariant (mw : String → MWOutcome) (nom : String → NomOutcome)
    (q : String) (r : GeocodingResult)
    (h : detectAreaFromLocation mw nom q = some r) :
    (r.area = "unknown" ∨ ∃ e ∈ LOCATION_TO_AREA_MAP ++ STATE_TO_AREA_MAP, e.2 = r.area) ∧
    (r.area = "unknown" ↔ r.confidence = .low) ∧
    (r.area = "unknown" → r.source = .geocoding) := by
  cases hd : scanTable LOCATION_TO_AREA_MAP (normalizeQuery q) with
  | some e =>
    obtain ⟨k, a⟩ := e
    have hmem : (k, a) ∈ LOCATION_TO_AREA_MAP := scanTable_mem hd
    have hv := table_values_ok (k, a) (List.mem_append_left _ hmem)
    cases hg : geocodeLocation mw nom q with
    | some g =>
      rw [detect_direct_geocode_ok mw nom q k a g hd hg] at h
      simp only [Option.some.injEq] at h
      subst h
      exact area_invariant_of_table rfl hv.1
        ⟨(k, a), List.mem_append_left _ hmem, rfl⟩ (fun hx => Confidence.noConfusion hx)
    | none =>
      rw [detect_direct_geocode_fail mw nom q k a hd hg] at h
      simp only [Option.some.injEq] at h
      subst h
      exact area_invariant_of_table rfl hv.1
        ⟨(k, a), List.mem_append_left _ hmem, rfl⟩ (fun hx => Confidence.noConfusion hx)
  | none =>
    cases hs : scanTable STATE_TO_AREA_MAP (normalizeQuery q) with
    | some e =>
      obtain ⟨k, a⟩ := e
      have hmem : (k, a) ∈ STATE_TO_AREA_MAP := scanTable_mem hs
      have hv := table_values_ok (k, a) (List.mem_append_right _ hmem)
      cases hg : geocodeLocation mw nom q with
      | some g =>
        rw [detect_state_geocode_ok mw nom q k a g hd hs hg] at h
        simp only [Option.some.injEq] at h
        subst h
        exact area_invariant_of_table rfl hv.1
          ⟨(k, a), List.mem_append_right _ hmem, rfl⟩ (fun hx => Confidence.noConfusion hx)
      | none =>
        rw [detect_state_geocode_fail mw nom q k a hd hs hg] at h
        simp only [Option.some.injEq] at h
        subst h
        exact area_invariant_of_table rfl hv.1
          ⟨(k, a), List.mem_append_right _ hmem, rfl⟩ (fun hx => Confidence.noConfusion hx)
    | none =>
      cases hg : geocodeLocation mw nom q with
      | none =>
        rw [detect_nomatch_geocode_fail mw nom q hd hs hg] at h
        cases h
      | some g =>
        rw [detect_nomatch_geocode_ok mw nom q g hd hs hg] at h
        by_cases hb : (!(g.area == "") && !(g.area == "unknown")) = true
        · rw [if_pos hb] at h
          simp only [Option.some.injEq] at h
          subst h
          rw [Bool.and_eq_true] at hb
          obtain ⟨hb1, hb2⟩ := hb
          have hne : g.area ≠ "unknown" := by
            rw [Bool.not_eq_true'] at hb2
            exact beq_eq_false_iff_ne.mp hb2
          obtain ⟨hsrc, hdisj⟩ := geocodeLocation_invariant hg
          rcases hdisj with ⟨hu, _⟩ | ⟨⟨e, hmem, heq⟩, hconf⟩
          · exact absurd hu hne
          · have hconf' : g.confidence ≠ .low := by
              rcases hconf with hcf | hcf <;> rw [hcf] <;> decide
            exact area_invariant_of_table rfl hne
              ⟨e, List.mem_append_right _ hmem, heq⟩ hconf'
        · rw [if_neg hb] at h
          simp only [Option.some.injEq] at h
          subst h
          have hx : (g.area == "") = true ∨ (g.area == "unknown") = true := by
            by_cases h1 : (g.area == "") = true
            · exact Or.inl h1
            · right
              by_cases h2 : (g.area == "unknown") = true
              · exact h2
              · exfalso
                apply hb
                rw [Bool.not_eq_true] at h1 h2
                rw [h1, h2]
                rfl
          have harea : jsOrStr g.area "unknown" = "unknown" := by
            rcases hx with hx | hx
            · simp [jsOrStr, hx]
            · have hgu : g.area = "unknown" := by simpa using hx
              simp [jsOrStr, hgu]
          exact ⟨Or.inl harea, by simp [harea], fun _ => rfl⟩

/-- Claim C9 witness: instantiated at the query "Komtar" with both providers
erroring; the detection result is the direct-match medium record. -/
theorem C9_area_invariant_witness :
    (let r : GeocodingResult :=
      { area := "penang", confidence := .medium,
        location := { name := "Komtar", state := none, lat := 0, lon := 0 },
        source := .direct_match }
    (r.area = "unknown" ∨ ∃ e ∈ LOCATION_TO_AREA_MAP ++ STATE_TO_AREA_MAP, e.2 = r.area) ∧
    (r.area = "unknown" ↔ r.confidence = .low) ∧
    (r.area = "unknown" → r.source = .geocoding)) :=
  C9_area_invariant (fun _ => .err) (fun _ => .err) "Komtar"
    { area := "penang", confidence := .medium,
      location := { name := "Komtar", state := none, lat := 0, lon := 0 },
      source := .direct_match } (by decide)

/-- Claim C4 counterexample: the query "zzz" matches no gazetteer key; the
primary provider throws and the fallback successfully returns coordinates
whose address text yields no service area.  The function returns none, not an
unknown-area low-confidence result carrying those coordinates, so the claim
fails for the fallback provider. -/
theorem C4_counterexample :
    (∀ e ∈ LOCATION_TO_AREA_MAP, strIncludes (normalizeQuery "zzz") e.1 = false) ∧
    (∀ e ∈ STATE_TO_AREA_MAP, strIncludes (normalizeQuery "zzz") e.1 = false) ∧
    detectAreaFromLocation (fun _ => .err)
      (fun _ => .resp [⟨"Somewhere", some ⟨some "Atlantis", none, none, none⟩, 3, 101⟩])
      "zzz" = none := by
  exact ⟨by decide, by decide, by decide⟩

/-- Claim C4 amended: for a query with no gazetteer match, when the PRIMARY
provider returns coordinates but no area can be derived from its formatted
address, the result is area "unknown" with confidence low and source
geocoding, still carrying the provider coordinates; when instead only the
FALLBACK could answer and it derives no area, the fallback yields no result
at all and detection returns none. -/
theorem C4_unknown_low (mw : String → MWOutcome) (nom : String → NomOutcome)
    (q : String) (d : MWData)
    (hd : ∀ e ∈ LOCATION_TO_AREA_MAP, strIncludes (normalizeQuery q) e.1 = false)
    (hs : ∀ e ∈ STATE_TO_AREA_MAP, strIncludes (normalizeQuery q) e.1 = false) :
    (mw (middlewareRequestPlace q) = .resp (some d) →
      jsTruthyNum d.lat = true → jsTruthyNum d.lon = true →
      scanTable STATE_TO_AREA_MAP (lowerStr (jsOrOptStr d.formattedAddress "")) = none →
      ∃ r, detectAreaFromLocation mw nom q = some r ∧
        r.area = "unknown" ∧ r.confidence = .low ∧ r.source = .geocoding ∧
        r.location.lat = d.lat.getD 0 ∧ r.location.lon = d.lon.getD 0) ∧
    (mwFails mw q → geocodeWithNominatim nom q = none →
      detectAreaFromLocation mw nom q = none) := by
  have hd' := scanTable_eq_none hd
  have hs' := scanTable_eq_none hs
  constructor
  · intro hresp hlat hlon hscan
    have hmw := geocodeWithMiddleware_scan_none hresp hlat hlon hscan
    have hg : geocodeLocation mw nom q =
        some { area := "unknown", confidence := .low,
               location := { name := jsOrOptStr d.formattedAddress q,
                             state := none, country := some "Malaysia",
                             lat := d.lat.getD 0, lon := d.lon.getD 0 },
               source := .geocoding } := by
      simp only [geocodeLocation, hmw]
    have hdet := detect_nomatch_geocode_ok mw nom q _ hd' hs' hg
    rw [hdet]
    exact ⟨_, rfl, rfl, rfl, rfl, rfl, rfl⟩
  · intro hfail hnom
    have hg : geocodeLocation mw nom q = none := by
      rw [geocodeLocation_of_mwFails hfail, hnom]
    exact detect_nomatch_geocode_fail mw nom q hd' hs' hg

/-- Claim C4 amended witness: instantiated at the query "zzz" with a
middleware response whose formatted address matches no state key. -/
theorem C4_unknown_low_witness :
    (((fun (_ : String) => MWOutcome.resp
          (some ⟨some 3, some 101, some "1 Nowhere Plaza"⟩)) (middlewareRequestPlace "zzz") =
        .resp (some ⟨some 3, some 101, some "1 Nowhere Plaza"⟩) →
      jsTruthyNum (MWData.mk (some 3) (some 101) (some "1 Nowhere Plaza")).lat = true →
      jsTruthyNum (MWData.mk (some 3) (some 101) (some "1 Nowhere Plaza")).lon = true →
      scanTable STATE_TO_AREA_MAP
        (lowerStr (jsOrOptStr (MWData.mk (some 3) (some 101)
          (some "1 Nowhere Plaza")).formattedAddress "")) = none →
      ∃ r, detectAreaFromLocation
          (fun _ => .resp (some ⟨some 3, some 101, some "1 Nowhere Plaza"⟩))
          (fun _ => .err) "zzz" = some r ∧
        r.area = "unknown" ∧ r.confidence = .low ∧ r.source = .geocoding ∧
        r.location.lat = (MWData.mk (some 3) (some 101)
          (some "1 Nowhere Plaza")).lat.getD 0 ∧
        r.location.lon = (MWData.mk (some 3) (some 101)
          (some "1 Nowhere Plaza")).lon.getD 0) ∧
     (mwFails (fun _ => .resp (some ⟨some 3, some 101, some "1 Nowhere Plaza"⟩)) "zzz" →
      geocodeWithNominatim (fun _ => .err) "zzz" = none →
      detectAreaFromLocation
        (fun _ => .resp (some ⟨some 3, some 101, some "1 Nowhere Plaza"⟩))
        (fun _ => .err) "zzz" = none)) ∧
    (∃ r, detectAreaFromLocation
        (fun _ => .resp (some ⟨some 3, some 101, some "1 Nowhere Plaza"⟩))
        (fun _ => .err) "zzz" = some r ∧
      r.area = "unknown" ∧ r.confidence = .low ∧ r.source = .geocoding ∧
      r.location.lat = 3 ∧ r.location.lon = 101) :=
  have h := C4_unknown_low
    (fun _ => .resp (some ⟨some 3, some 101, some "1 Nowhere Plaza"⟩))
    (fun _ => .err) "zzz" ⟨some 3, some 101, some "1 Nowhere Plaza"⟩
    (by decide) (by decide)
  ⟨h, h.1 rfl (by decide) (by decide) (by decide)⟩

/-- Claim C5 counterexample: for the query "KLCC" the primary middleware
provider is called with the place parameter "KLCC" itself; ", Malaysia" is
not appended to the primary request, contradicting the claim that the append
happens for both provider requests. -/
theorem C5_counterexample :
    middlewareRequestPlace "KLCC" = "KLCC" ∧
    specProviderQuery "KLCC" = "KLCC, Malaysia" ∧
    middlewareRequestPlace "KLCC" ≠ specProviderQuery "KLCC" := by
  exact ⟨rfl, by decide, by decide⟩

/-- Claim C5 amended: both providers are called with the original, never
lower-cased query; the fallback request appends ", Malaysia" exactly when
the lower-cased query does not contain "malaysia", exactly as the spec
describes, while the primary request sends the query unchanged, so the
primary request agrees with the spec description exactly for queries already
mentioning Malaysia. -/
theorem C5_request_building (q : String) :
    middlewareRequestPlace q = q ∧
    nominatimSearchQuery q = specProviderQuery q ∧
    (middlewareRequestPlace q = specProviderQuery q ↔
      strIncludes (lowerStr q) "malaysia" = true) := by
  refine ⟨rfl, rfl, ?_⟩
  constructor
  · intro h
    rw [middlewareRequestPlace, specProviderQuery] at h
    by_cases hb : strIncludes (lowerStr q) "malaysia" = true
    · exact hb
    · rw [if_neg hb] at h
      have hlen := congrArg String.length h
      rw [String.length_append] at hlen
      have h10 : (", Malaysia").length = 10 := rfl
      rw [h10] at hlen
      omega
  · intro h
    rw [middlewareRequestPlace, specProviderQuery, if_pos h]

/-- Claim C5 amended witness: instantiated at the query "KLCC". -/
theorem C5_request_building_witness :
    middlewareRequestPlace "KLCC" = "KLCC" ∧
    nominatimSearchQuery "KLCC" = specProviderQuery "KLCC" ∧
    (middlewareRequestPlace "KLCC" = specProviderQuery "KLCC" ↔
      strIncludes (lowerStr "KLCC") "malaysia" = true) :=
  C5_request_building "KLCC"

/-- Claim C10: the legacy resolver in src/firebase-analytics.ts has gazetteer
tables identical to those of src/geocoding.utils.ts, and on every query on
which both geocode chains yield no result the two implementations return
equal results; that common result is the confidence-medium zero-coordinate
record when a table match exists and none otherwise. -/
theorem C10_legacy_equivalence (apiKey : Option String) (goog : String → GoogOutcome)
    (nomF : String → NomOutcome) (mw : String → MWOutcome) (nom : String → NomOutcome)
    (q : String)
    (hfb : fbGeocodeLocation apiKey goog nomF q = none)
    (hg : geocodeLocation mw nom q = none) :
    FB_STATE_TO_AREA_MAP = STATE_TO_AREA_MAP ∧
    FB_LOCATION_TO_AREA_MAP = LOCATION_TO_AREA_MAP ∧
    fbDetectAreaFromLocation apiKey goog nomF q = detectAreaFromLocation mw nom q ∧
    (∀ r, detectAreaFromLocation mw nom q = some r →
      r.confidence = .medium ∧ r.location.lat = 0 ∧ r.location.lon = 0) ∧
    ((scanTable LOCATION_TO_AREA_MAP (normalizeQuery q) = none ∧
      scanTable STATE_TO_AREA_MAP (normalizeQuery q) = none) →
      detectAreaFromLocation mw nom q = none) := by
  have htabS : FB_STATE_TO_AREA_MAP = STATE_TO_AREA_MAP := rfl
  have htabL : FB_LOCATION_TO_AREA_MAP = LOCATION_TO_AREA_MAP := rfl
  refine ⟨htabS, htabL, ?_, ?_, ?_⟩
  · simp only [fbDetectAreaFromLocation, detectAreaFromLocation, hfb, hg, htabS, htabL]
    cases hd : scanTable LOCATION_TO_AREA_MAP (normalizeQuery q) with
    | some e =>
      obtain ⟨k, a⟩ := e
      rfl
    | none =>
      cases hs : scanTable STATE_TO_AREA_MAP (normalizeQuery q) with
      | some e =>
        obtain ⟨k, a⟩ := e
        rfl
      | none => rfl
  · intro r hr
    cases hd : scanTable LOCATION_TO_AREA_MAP (normalizeQuery q) with
    | some e =>
      obtain ⟨k, a⟩ := e
      rw [detect_direct_geocode_fail mw nom q k a hd hg] at hr
      simp only [Option.some.injEq] at hr
      subst hr
      exact ⟨rfl, rfl, rfl⟩
    | none =>
      cases hs : scanTable STATE_TO_AREA_MAP (normalizeQuery q) with
      | some e =>
        obtain ⟨k, a⟩ := e
        rw [detect_state_geocode_fail mw nom q k a hd hs hg] at hr
        simp only [Option.some.injEq] at hr
        subst hr
        exact ⟨rfl, rfl, rfl⟩
      | none =>
        rw [detect_nomatch_geocode_fail mw nom q hd hs hg] at hr
        cases hr
  · intro hboth
    exact detect_nomatch_geocode_fail mw nom q hboth.1 hboth.2 hg

/-- Claim C10 witness: instantiated at the query "Kuantan" with no API key
configured and every provider erroring. -/
theorem C10_legacy_equivalence_witness :
    FB_STATE_TO_AREA_MAP = STATE_TO_AREA_MAP ∧
    FB_LOCATION_TO_AREA_MAP = LOCATION_TO_AREA_MAP ∧
    fbDetectAreaFromLocation none (fun _ => .err) (fun _ => .err) "Kuantan" =
      detectAreaFromLocation (fun _ => .err) (fun _ => .err) "Kuantan" ∧
    (∀ r, detectAreaFromLocation (fun _ => .err) (fun _ => .err) "Kuantan" = some r →
      r.confidence = .medium ∧ r.location.lat = 0 ∧ r.location.lon = 0) ∧
    ((scanTable LOCATION_TO_AREA_MAP (normalizeQuery "Kuantan") = none ∧
      scanTable STATE_TO_AREA_MAP (normalizeQuery "Kuantan") = none) →
      detectAreaFromLocation (fun _ => .err) (fun _ => .err) "Kuantan" = none) :=
  C10_legacy_equivalence none (fun _ => .err) (fun _ => .err)
    (fun _ => .err) (fun _ => .err) "Kuantan" (by decide) (by decide)

end MTransit
